import Mathlib

/-
Verification of the message-persistence pipeline of mqtt_subscriber_mariadb.py:
the backend write contract (MariaDBBackend.write, MongoDBBackend.write), the
dispatch callback on_message, and the lifecycle callbacks on_connect,
on_disconnect, on_connect_fail.

Modelling conventions:
- A Python value returned by a backend `write` is a `PyVal`: the source returns
  `True`, and MariaDBBackend.write falls off the end of its except-branch, which
  in Python returns `None`; `pyFalse` exists so that "returns False" is
  expressible and distinguishable from "returns None".
- A raised-and-uncaught Python exception is `Except.error`; a normal return is
  `Except.ok`.
- The external drivers (mariadb cursor/execute, pymongo insert_one) and
  `json.loads` are environment oracles: their behaviour on one call is a
  parameter (`MariaOutcome`, `MongoOutcome`, a parse function), and the Lean
  functions reproduce exactly what the source does with each oracle answer,
  including which exceptions its try/except blocks catch.
- Log emission is modelled by counting the log records the source emits on each
  path (warning count for MongoDBBackend.write, error count for
  MariaDBBackend.write, leveled records for the lifecycle callbacks).
- Timestamps are abstract instants (`Nat`): the document backend passes the
  client clock value `now` into the stored document; the relational backend's
  `time` column is server-generated by NOW() inside the database and therefore
  does not appear in the modelled row.
-/

namespace MqttSubscriberMariadb

/-- An MQTT message as seen by the callbacks: `msg.topic` and `msg.payload`
(payload bytes as a list of byte values). -/
structure Msg where
  topic : String
  payload : List Nat
deriving DecidableEq

/-- The Python values a backend `write` can return in the source: `True`
(explicit), `None` (implicit fall-through return), and `False` (never actually
returned, but needed to state claims about it). -/
inductive PyVal where
  | pyTrue
  | pyFalse
  | pyNone
deriving DecidableEq

/-- Python truthiness of a `PyVal`, as tested by `if not backend.write(msg)`:
only `True` is truthy among the three values. -/
def truthy : PyVal → Bool
  | .pyTrue => true
  | _ => false

/-- The uncaught exceptions that can escape a backend `write` in the source. -/
inductive Exc where
  | mariadbError
  | pymongoError
deriving DecidableEq

/-- A parsed-JSON value, the result of a successful `json.loads` of a payload.
The backend stores it opaquely, so only its shape matters. -/
inductive Json where
  | null
  | bool (b : Bool)
  | num (n : Int)
  | str (s : String)
  | arr (xs : List Json)
  | obj (fields : List (String × Json))

/-- One row of the relational `messages` table as the source inserts it: the
bound parameters `(msg.topic, msg.payload)`; the `time` column is
server-generated by NOW() and not client-supplied. -/
structure Row where
  topic : String
  payload : List Nat
deriving DecidableEq

/-- Behaviour of the mariadb driver on one `write` call: `client.cursor()`
raises (it is called OUTSIDE the try block at line 43), or
`cursor.execute` succeeds returning a row id, or `cursor.execute` raises
`mariadb.Error` (caught by the except at line 60). -/
inductive MariaOutcome where
  | cursorRaises
  | execOk (rowid : Nat)
  | execRaisesMariaError
deriving DecidableEq

/-- The SQL text MariaDBBackend.write passes to `cursor.execute` (lines 46-50):
a constant string with two `?` placeholders, built without reference to the
message. -/
def mariadbQueryText (_msg : Msg) : String :=
  "INSERT INTO messages (time, topic, payload) VALUES (NOW(), ?, ?)"

/-- The parameter tuple MariaDBBackend.write passes to `cursor.execute`
(line 51): `(msg.topic, msg.payload)`. -/
def mariadbQueryParams (msg : Msg) : String × List Nat :=
  (msg.topic, msg.payload)

/-- Observable effect of one MariaDBBackend.write call that returned normally:
the returned value, the rows inserted, and the error-level log records
emitted. -/
structure MariaWriteEffect where
  retval : PyVal
  rows : List Row
  errorLogs : Nat
deriving DecidableEq

/-- MariaDBBackend.write (lines 42-62). `cursor = self.client.cursor()` stands
before the try block, so an exception there propagates. Inside the try,
`cursor.execute(query, params)` either succeeds — one row of the bound
parameters is inserted, a debug record is logged, and `True` is returned — or
raises `mariadb.Error`, which the except clause catches, logging one
error record; that branch has no return statement, so the function returns
`None`. -/
def mariadbWrite (o : MariaOutcome) (msg : Msg) : Except Exc MariaWriteEffect :=
  match o with
  | .cursorRaises => .error .mariadbError
  | .execOk _ =>
      .ok ⟨.pyTrue, [⟨(mariadbQueryParams msg).1, (mariadbQueryParams msg).2⟩], 0⟩
  | .execRaisesMariaError => .ok ⟨.pyNone, [], 1⟩

/-- One document of the Mongo collection as MongoDBBackend.write inserts it
(lines 86-90): client-assigned UTC write time, the message topic, and the
parsed-JSON payload. -/
structure MongoDoc where
  time : Nat
  topic : String
  message : Json

/-- Behaviour of the pymongo driver on one `insert_one` call: success with an
inserted id, or a raised driver error (nothing in `write` catches it). -/
inductive MongoOutcome where
  | insertOk (rid : String)
  | insertRaises

/-- Observable effect of one MongoDBBackend.write call that returned normally:
the returned value, the documents inserted, and the warning-level log records
emitted. -/
structure MongoWriteEffect where
  retval : PyVal
  docs : List MongoDoc
  warningLogs : Nat

/-- MongoDBBackend.write (lines 80-97). `json.loads(msg.payload)` is the oracle
`parse`: on parse failure (the except catches `json.decoder.JSONDecodeError`),
one warning is logged and `True` is returned with nothing inserted; on parse
success a document `{time: now (UTC), topic: msg.topic, message: parsed}` is
passed to `collection.insert_one`, which either succeeds — `True` is returned —
or raises, and no clause catches the driver error, so it propagates. -/
def mongodbWrite (parse : List Nat → Option Json) (now : Nat)
    (o : MongoOutcome) (msg : Msg) : Except Exc MongoWriteEffect :=
  match parse msg.payload with
  | none => .ok ⟨.pyTrue, [], 1⟩
  | some j =>
      match o with
      | .insertOk _ => .ok ⟨.pyTrue, [⟨now, msg.topic, j⟩], 0⟩
      | .insertRaises => .error .pymongoError

/-- A backend as the dispatch loop sees it: `backend.write(msg)` either raises
or returns a Python value whose truthiness the loop tests. -/
def BackendFn : Type := Msg → Except Exc PyVal

/-- MariaDBBackend wired into the dispatch loop: the value `write` returns (or
the exception it raises), given the driver outcome. -/
def mariadbBackendFn (o : MariaOutcome) : BackendFn :=
  fun msg => Except.map (fun eff => eff.retval) (mariadbWrite o msg)

/-- MongoDBBackend wired into the dispatch loop: the value `write` returns (or
the exception it raises), given the parse oracle, clock and driver outcome. -/
def mongodbBackendFn (parse : List Nat → Option Json) (now : Nat)
    (o : MongoOutcome) : BackendFn :=
  fun msg => Except.map (fun eff => eff.retval) (mongodbWrite parse now o msg)

/-- The mutable userdata dictionary built in main (line 242), restricted to the
fields the callbacks touch: the ordered backend list, the configured topics
(from args), and `exit_code`. -/
structure Userdata where
  backends : List BackendFn
  topics : List String
  exit_code : Int

/-- Log levels of the records the lifecycle callbacks emit. -/
inductive LogLevel where
  | debug
  | info
  | warning
  | error
deriving DecidableEq

/-- Result of the loop body of on_message over one backend list: the final
`exit_code`, whether `client.disconnect()` was called, and how many backends
had `write` invoked on them. -/
structure MsgDispatchResult where
  exit_code : Int
  disconnectCalled : Bool
  invoked : Nat
deriving DecidableEq

/-- The `for backend in userdata["backends"]` loop of on_message (lines
125-129): invoke `backend.write(msg)` on each backend in order; an uncaught
exception propagates out of the loop; a falsy return value sets
`exit_code = -2`, calls `client.disconnect()` and breaks, so later backends are
not invoked. -/
def writeLoop (backends : List BackendFn) (msg : Msg) (ec : Int) :
    Except Exc MsgDispatchResult :=
  match backends with
  | [] => .ok ⟨ec, false, 0⟩
  | b :: bs =>
      match b msg with
      | .error e => .error e
      | .ok v =>
          if truthy v then
            match writeLoop bs msg ec with
            | .error e => .error e
            | .ok r => .ok ⟨r.exit_code, r.disconnectCalled, r.invoked + 1⟩
          else
            .ok ⟨-2, true, 1⟩

/-- on_message (lines 124-129): run the write loop over the userdata's backends
and record the updated `exit_code`, together with whether disconnection was
requested and how many backends were invoked. -/
def on_message (ud : Userdata) (msg : Msg) :
    Except Exc (Userdata × Bool × Nat) :=
  match writeLoop ud.backends msg ud.exit_code with
  | .error e => .error e
  | .ok r => .ok ({ ud with exit_code := r.exit_code }, r.disconnectCalled, r.invoked)

/-- on_connect (lines 100-110): logs, then subscribes to every configured topic
at QoS 0; userdata is not written. Result: the userdata and the list of
(topic, qos) subscribe requests issued. -/
def on_connect (ud : Userdata) : Userdata × List (String × Nat) :=
  (ud, ud.topics.map (fun t => (t, 0)))

/-- on_disconnect (lines 113-117): if `exit_code` is nonzero, return at once
without logging; otherwise log one reconnect warning. Userdata is not
written. -/
def on_disconnect (ud : Userdata) : Userdata × List LogLevel :=
  if ud.exit_code ≠ 0 then (ud, []) else (ud, [.warning])

/-- on_connect_fail (lines 120-121): logs one debug record; userdata is not
written. -/
def on_connect_fail (ud : Userdata) : Userdata × List LogLevel :=
  (ud, [.debug])

/-- BackendSet construction in main (lines 228-232): a backend is appended for
each kind whose host argument is truthy (argparse leaves an unset option as
None; an empty string is also falsy in Python). -/
def hostTruthy : Option String → Bool
  | none => false
  | some s => !s.isEmpty

/-- The backend list main builds (lines 228-232): MariaDB first when its host
is configured, then MongoDB when its host is configured. -/
def buildBackends (mariadbHost mongodbHost : Option String)
    (mdb mgo : BackendFn) : List BackendFn :=
  (if hostTruthy mariadbHost then [mdb] else []) ++
    (if hostTruthy mongodbHost then [mgo] else [])

/-- Delivery of a sequence of messages, one on_message call per message in
order, threading the userdata through and summing the number of backend
invocations. -/
def dispatchAll (ud : Userdata) (msgs : List Msg) :
    Except Exc (Userdata × Nat) :=
  match msgs with
  | [] => .ok (ud, 0)
  | m :: ms =>
      match on_message ud m with
      | .error e => .error e
      | .ok (ud2, _, k) =>
          match dispatchAll ud2 ms with
          | .error e => .error e
          | .ok (ud3, n) => .ok (ud3, k + n)

/- Concrete helpers used by witnesses and counterexamples. -/

/-- A backend whose write succeeds, returning True. -/
def okTrueBackend : BackendFn := fun _ => .ok .pyTrue

/-- A backend whose write reports failure the way MariaDBBackend does: a normal
return of the falsy None. -/
def failNoneBackend : BackendFn := fun _ => .ok .pyNone

/-- A concrete message. -/
def msg0 : Msg := ⟨"sensors/temp", [123, 34, 118, 34, 58, 50, 49, 46, 53, 125]⟩

/-- A parse oracle for payloads that are not valid JSON: json.loads raises
JSONDecodeError on every input. -/
def parseAlwaysFails : List Nat → Option Json := fun _ => none

/-- A parse oracle for payloads that are valid JSON: json.loads succeeds with
the JSON null on every input. -/
def parseAlwaysNull : List Nat → Option Json := fun _ => some Json.null

/-- Helper: the write loop on a list splitting as successes, then one failing
backend, then anything, invokes exactly the successes and the failing backend,
sets exit_code to -2 and requests disconnection. -/
theorem writeLoop_short_circuit (pre : List BackendFn) (bad : BackendFn)
    (post : List BackendFn) (msg : Msg) (ec : Int)
    (hpre : ∀ b ∈ pre, ∃ v, b msg = Except.ok v ∧ truthy v = true)
    (hbad : ∃ v, bad msg = Except.ok v ∧ truthy v = false) :
    writeLoop (pre ++ bad :: post) msg ec
      = Except.ok ⟨-2, true, pre.length + 1⟩ := by
  induction pre with
  | nil =>
      obtain ⟨v, hv, htf⟩ := hbad
      simp [writeLoop, hv, htf]
  | cons b rest ih =>
      obtain ⟨v, hv, ht⟩ := hpre b (List.mem_cons_self b rest)
      have hrec := ih (fun b hb => hpre b (List.mem_cons_of_mem _ hb))
      simp [writeLoop, hv, ht, hrec]

/-- C1: for every delivered message and every backend list made of an ordered
prefix of succeeding backends followed by a backend whose write returns a falsy
value, on_message invokes write on the prefix in order and on the failing
backend, sets exit_code to -2, requests disconnection, and invokes none of the
remaining backends (exactly pre.length + 1 invocations). -/
theorem on_message_short_circuits (pre : List BackendFn) (bad : BackendFn)
    (post : List BackendFn) (msg : Msg) (topics : List String) (ec : Int)
    (hpre : ∀ b ∈ pre, ∃ v, b msg = Except.ok v ∧ truthy v = true)
    (hbad : ∃ v, bad msg = Except.ok v ∧ truthy v = false) :
    on_message ⟨pre ++ bad :: post, topics, ec⟩ msg
      = Except.ok (⟨pre ++ bad :: post, topics, -2⟩, true, pre.length + 1) := by
  have h := writeLoop_short_circuit pre bad post msg ec hpre hbad
  simp [on_message, h]

/-- Witness for C1: with backends [okTrueBackend, failNoneBackend,
okTrueBackend], the first two are invoked, exit_code becomes -2, disconnection
is requested, and the third backend is never invoked. -/
theorem on_message_short_circuits_witness :
    on_message ⟨[okTrueBackend, failNoneBackend, okTrueBackend], ["#"], 0⟩ msg0
      = Except.ok (⟨[okTrueBackend, failNoneBackend, okTrueBackend], ["#"], -2⟩,
          true, 2) :=
  on_message_short_circuits [okTrueBackend] failNoneBackend [okTrueBackend]
    msg0 ["#"] 0
    (by
      intro b hb
      have hb2 : b = okTrueBackend := by simpa using hb
      exact ⟨PyVal.pyTrue, by rw [hb2]; exact rfl, rfl⟩)
    ⟨PyVal.pyNone, rfl, rfl⟩

/-- C5: with an empty BackendSet (which main builds whenever neither backend
host is configured), delivering any sequence of messages leaves exit_code at 0,
invokes no backend write, and has no persistence side effect. -/
theorem empty_backendset_no_effects (mdb mgo : BackendFn)
    (topics : List String) (msgs : List Msg) :
    buildBackends none none mdb mgo = [] ∧
    dispatchAll ⟨[], topics, 0⟩ msgs = Except.ok (⟨[], topics, 0⟩, 0) := by
  refine ⟨rfl, ?_⟩
  induction msgs with
  | nil => rfl
  | cons m ms ih => simp [dispatchAll, on_message, writeLoop, ih]

/-- C6: the connect, disconnect and connect-failure callbacks return the
userdata unchanged — in particular exit_code and the backend list are
untouched — for every prior state. -/
theorem lifecycle_callbacks_frame (ud : Userdata) :
    (on_connect ud).1 = ud ∧ (on_disconnect ud).1 = ud ∧
      (on_connect_fail ud).1 = ud := by
  refine ⟨rfl, ?_, rfl⟩
  unfold on_disconnect
  split <;> rfl

/-- C9: on_disconnect emits its reconnect warning if and only if exit_code is
still 0; when exit_code is already the fatal sentinel -2 it logs nothing, and
in every case it performs no other action (userdata unchanged). -/
theorem on_disconnect_warns_iff_exit_code_zero (ud : Userdata) :
    (on_disconnect ud).1 = ud ∧
    ((on_disconnect ud).2 = [LogLevel.warning] ↔ ud.exit_code = 0) ∧
    (ud.exit_code = -2 → (on_disconnect ud).2 = []) := by
  unfold on_disconnect
  rcases eq_or_ne ud.exit_code 0 with h | h
  · simp [h]
  · simp [h]

/-- Witness for C9: at exit_code -2 no record is logged; at exit_code 0 the
warning is logged. -/
theorem on_disconnect_witness :
    (on_disconnect ⟨[], [], -2⟩).2 = [] ∧
      (on_disconnect ⟨[], [], 0⟩).2 = [LogLevel.warning] :=
  ⟨(on_disconnect_warns_iff_exit_code_zero ⟨[], [], -2⟩).2.2 rfl,
   (on_disconnect_warns_iff_exit_code_zero ⟨[], [], 0⟩).2.1.mpr rfl⟩

/-- C2 counterexample: on a valid-JSON payload, when pymongo's insert_one
raises, MongoDBBackend.write raises (nothing in it catches the driver error),
and the exception crosses into the dispatch callback: on_message with that
backend propagates it. -/
theorem mongodb_insert_exception_escapes :
    mongodbWrite parseAlwaysNull 0 MongoOutcome.insertRaises msg0
      = Except.error Exc.pymongoError ∧
    on_message ⟨[mongodbBackendFn parseAlwaysNull 0 MongoOutcome.insertRaises],
        ["#"], 0⟩ msg0
      = Except.error Exc.pymongoError :=
  ⟨rfl, rfl⟩

/-- C2 amended: the exceptions each backend explicitly guards against are
translated to the write result — JSONDecodeError in MongoDBBackend.write
(warning, return True), mariadb.Error raised by cursor.execute in
MariaDBBackend.write (error log, fall-through return None) — but an exception
from pymongo's insert_one, or a mariadb.Error from the cursor acquisition that
stands before the try block, propagates uncaught out of write. -/
theorem backend_exception_translation (parse : List Nat → Option Json)
    (now : Nat) (o : MongoOutcome) (msg : Msg) :
    (parse msg.payload = none →
      mongodbWrite parse now o msg = Except.ok ⟨PyVal.pyTrue, [], 1⟩) ∧
    mariadbWrite MariaOutcome.execRaisesMariaError msg
      = Except.ok ⟨PyVal.pyNone, [], 1⟩ ∧
    (∀ j, parse msg.payload = some j →
      mongodbWrite parse now MongoOutcome.insertRaises msg
        = Except.error Exc.pymongoError) ∧
    mariadbWrite MariaOutcome.cursorRaises msg
      = Except.error Exc.mariadbError := by
  refine ⟨?_, rfl, ?_, rfl⟩
  · intro h
    simp [mongodbWrite, h]
  · intro j h
    simp [mongodbWrite, h]

/-- Witness for the amended C2: a failing parse is translated to True with one
warning; a successful parse followed by a raising insert_one propagates the
driver error. -/
theorem backend_exception_translation_witness :
    mongodbWrite parseAlwaysFails 0 (MongoOutcome.insertOk "id0") msg0
      = Except.ok ⟨PyVal.pyTrue, [], 1⟩ ∧
    mongodbWrite parseAlwaysNull 0 MongoOutcome.insertRaises msg0
      = Except.error Exc.pymongoError :=
  ⟨(backend_exception_translation parseAlwaysFails 0
      (MongoOutcome.insertOk "id0") msg0).1 rfl,
   (backend_exception_translation parseAlwaysNull 0
      MongoOutcome.insertRaises msg0).2.2.1 Json.null rfl⟩

/-- C3 counterexample: when cursor.execute raises a database error,
MariaDBBackend.write returns normally with the value None — not the boolean
False the claim states (the except branch has no return statement). -/
theorem mariadb_error_result_is_none_not_false :
    mariadbWrite MariaOutcome.execRaisesMariaError msg0
      = Except.ok ⟨PyVal.pyNone, [], 1⟩ ∧ PyVal.pyNone ≠ PyVal.pyFalse :=
  ⟨rfl, by decide⟩

/-- C3 amended: when the underlying insert raises a database error,
MariaDBBackend.write returns the falsy value None (one error record logged, no
row inserted), and the Bridge's truthiness test then sets exit_code to -2 and
requests disconnection. -/
theorem mariadb_error_returns_none_and_bridge_exits (msg : Msg)
    (topics : List String) (ec : Int) :
    mariadbWrite MariaOutcome.execRaisesMariaError msg
      = Except.ok ⟨PyVal.pyNone, [], 1⟩ ∧
    truthy PyVal.pyNone = false ∧
    on_message ⟨[mariadbBackendFn MariaOutcome.execRaisesMariaError],
        topics, ec⟩ msg
      = Except.ok (⟨[mariadbBackendFn MariaOutcome.execRaisesMariaError],
          topics, -2⟩, true, 1) :=
  ⟨rfl, rfl, rfl⟩

/-- C4: on a payload that the parse oracle rejects (json.loads raises
JSONDecodeError), MongoDBBackend.write inserts zero documents, logs exactly
one warning, and returns True, whatever the driver would have done. -/
theorem document_backend_skips_invalid_json (parse : List Nat → Option Json)
    (now : Nat) (o : MongoOutcome) (msg : Msg)
    (h : parse msg.payload = none) :
    mongodbWrite parse now o msg = Except.ok ⟨PyVal.pyTrue, [], 1⟩ := by
  simp [mongodbWrite, h]

/-- Witness for C4: concrete non-JSON payload, concrete driver outcome. -/
theorem document_backend_skips_invalid_json_witness :
    mongodbWrite parseAlwaysFails 0 (MongoOutcome.insertOk "id1") msg0
      = Except.ok ⟨PyVal.pyTrue, [], 1⟩ :=
  document_backend_skips_invalid_json parseAlwaysFails 0
    (MongoOutcome.insertOk "id1") msg0 rfl

/-- C7: the SQL text MariaDBBackend.write passes to execute is the same string
for every pair of messages, and the topic and payload travel only as the bound
parameter tuple. -/
theorem sql_query_constant (m1 m2 : Msg) :
    mariadbQueryText m1 = mariadbQueryText m2 ∧
    mariadbQueryParams m1 = (m1.topic, m1.payload) ∧
    mariadbQueryParams m2 = (m2.topic, m2.payload) :=
  ⟨rfl, rfl, rfl⟩

/-- C8: on a payload the parse oracle accepts as JSON value j, with a
succeeding insert, MongoDBBackend.write inserts exactly one document whose
topic is the message topic, whose message field is j itself (deep-equal
round-trip), and whose time is the client clock value at write time; it logs
no warning and returns True. -/
theorem document_backend_roundtrip (parse : List Nat → Option Json)
    (now : Nat) (msg : Msg) (j : Json) (rid : String)
    (h : parse msg.payload = some j) :
    mongodbWrite parse now (MongoOutcome.insertOk rid) msg
      = Except.ok ⟨PyVal.pyTrue, [⟨now, msg.topic, j⟩], 0⟩ := by
  simp [mongodbWrite, h]

/-- Witness for C8: concrete JSON payload, clock 42 — one document
⟨42, "sensors/temp", null⟩ inserted. -/
theorem document_backend_roundtrip_witness :
    mongodbWrite parseAlwaysNull 42 (MongoOutcome.insertOk "id2") msg0
      = Except.ok ⟨PyVal.pyTrue, [⟨42, "sensors/temp", Json.null⟩], 0⟩ :=
  document_backend_roundtrip parseAlwaysNull 42 msg0 Json.null "id2" rfl

/-- C10: whenever MongoDBBackend.write returns normally (rather than raising),
the returned value is True — never False — so its return value is always
truthy and can never drive the Bridge onto the fatal-sentinel path. -/
theorem document_backend_never_false (parse : List Nat → Option Json)
    (now : Nat) (o : MongoOutcome) (msg : Msg) (eff : MongoWriteEffect)
    (h : mongodbWrite parse now o msg = Except.ok eff) :
    eff.retval = PyVal.pyTrue ∧ truthy eff.retval = true := by
  unfold mongodbWrite at h
  rcases hp : parse msg.payload with _ | j
  · rw [hp] at h
    cases h
    exact ⟨rfl, rfl⟩
  · rw [hp] at h
    cases o
    · cases h
      exact ⟨rfl, rfl⟩
    · cases h

/-- Witness for C10: the effect of a normally returning write on a non-JSON
payload has return value True, which is truthy. -/
theorem document_backend_never_false_witness :
    (⟨PyVal.pyTrue, [], 1⟩ : MongoWriteEffect).retval = PyVal.pyTrue ∧
      truthy (⟨PyVal.pyTrue, [], 1⟩ : MongoWriteEffect).retval = true :=
  document_backend_never_false parseAlwaysFails 0 (MongoOutcome.insertOk "id3")
    msg0 ⟨PyVal.pyTrue, [], 1⟩ rfl

end MqttSubscriberMariadb
